import Mathlib

/-!
Shallow embedding of the battle-monsters service (Rust, actix-web + diesel).

The domain core is `simulate_battle` in `src/api/battle_apis.rs`: a pure
function over two `Monster` snapshots that alternates attack turns until one
fighter's hit points reach zero.  The embedding mirrors that loop as a
well-founded recursive function `battle_loop`; besides the returned winner it
also records, as ghost observations, the final local states of both snapshots
and a per-turn log (whose turn it was, the damage computed, and the defender's
hit points before the hit), so that theorems can speak about individual turns.

The store operations `create_monster` (monster_repository.rs) and
`create_battle` (battle_repository.rs) are embedded with the freshly generated
UUID passed in as a parameter, and the CSV import logic of `import_csv`
(monster_apis.rs) is embedded over the list of per-row parse results, with the
store's per-row outcome abstracted as a function parameter.
-/

/-- Fighter record, mirroring `Monster` in `src/models/monster.rs`.
Timestamps (`chrono::NaiveDateTime`) are modelled as opaque integers. -/
structure Monster where
  id : String
  image_url : String
  attack : Int
  defense : Int
  hp : Int
  speed : Int
  created_at : Option Int
  updated_at : Option Int
  name : String
deriving DecidableEq, Repr

/-- Contest record, mirroring `Battle` in `src/models/battle.rs`. -/
structure Battle where
  id : String
  monster_a : String
  monster_b : String
  winner : String
  created_at : Option Int
  updated_at : Option Int
deriving DecidableEq, Repr

/-- Damage of one hit, from `battle_apis.rs` lines 98-102:
`if attacker.attack > defender.defense { attacker.attack - defender.defense } else { 1 }`. -/
def battle_damage (attacker defender : Monster) : Int :=
  if attacker.attack > defender.defense then attacker.attack - defender.defense else 1

/-- Initiative, from `battle_apis.rs` lines 84-89: `monster_a_turn` starts true
iff `monster_a.speed > monster_b.speed || (monster_a.speed == monster_b.speed
&& monster_a.attack > monster_b.attack)`. -/
def monster_a_first (monster_a monster_b : Monster) : Bool :=
  if monster_a.speed > monster_b.speed ∨
      (monster_a.speed = monster_b.speed ∧ monster_a.attack > monster_b.attack) then
    true
  else
    false

/-- Ghost log of one executed loop iteration of `simulate_battle`: the value of
`monster_a_turn`, the computed `damage`, and the defender's hp before the hit. -/
structure TurnLog where
  monster_a_turn : Bool
  damage : Int
  defender_hp_before : Int
deriving DecidableEq, Repr

/-- Result of running the battle loop: the returned winner (what the Rust
function returns) plus ghost observations of the final local `monster_a` /
`monster_b` values and the per-iteration log. -/
structure BattleRun where
  winner : Monster
  final_a : Monster
  final_b : Monster
  trace : List TurnLog
deriving DecidableEq, Repr

/-- The `loop` of `simulate_battle` (`battle_apis.rs` lines 91-112).  When
`monster_a_turn` the pair `(attacker, defender)` is `(monster_a, monster_b)`,
otherwise the roles are swapped; the damage is computed, and either the
defender's hp is decremented and the loop continues with the turn flag flipped,
or the defender's hp is set to 0 and a clone of the attacker is returned. -/
def battle_loop (monster_a monster_b : Monster) (monster_a_turn : Bool) : BattleRun :=
  if monster_a_turn then
    let damage := battle_damage monster_a monster_b
    if _h : monster_b.hp > damage then
      let r := battle_loop monster_a { monster_b with hp := monster_b.hp - damage } false
      { r with trace := ⟨true, damage, monster_b.hp⟩ :: r.trace }
    else
      { winner := monster_a
        final_a := monster_a
        final_b := { monster_b with hp := 0 }
        trace := [⟨true, damage, monster_b.hp⟩] }
  else
    let damage := battle_damage monster_b monster_a
    if _h : monster_a.hp > damage then
      let r := battle_loop { monster_a with hp := monster_a.hp - damage } monster_b true
      { r with trace := ⟨false, damage, monster_a.hp⟩ :: r.trace }
    else
      { winner := monster_b
        final_a := { monster_a with hp := 0 }
        final_b := monster_b
        trace := [⟨false, damage, monster_a.hp⟩] }
termination_by monster_a.hp.toNat + monster_b.hp.toNat
decreasing_by
  · have hd : 1 ≤ battle_damage monster_a monster_b := by
      unfold battle_damage
      split <;> omega
    omega
  · have hd : 1 ≤ battle_damage monster_b monster_a := by
      unfold battle_damage
      split <;> omega
    omega

/-- Full run of `simulate_battle` including the ghost observations. -/
def simulate_battle_run (monster_a monster_b : Monster) : BattleRun :=
  battle_loop monster_a monster_b (monster_a_first monster_a monster_b)

/-- The combat resolver `simulate_battle` (`battle_apis.rs` lines 82-113):
it returns the winning snapshot. -/
def simulate_battle (monster_a monster_b : Monster) : Monster :=
  (simulate_battle_run monster_a monster_b).winner

/-! ### Store operations -/

/-- Create operation of `monster_repository.rs` lines 14-25: the inserted and
returned record is the client-supplied record with its `id` replaced by a
freshly generated UUID (`uuid::Uuid::new_v4()`), here passed as the parameter
`fresh_id`.  The same record value is inserted into the store and returned. -/
def create_monster (fresh_id : String) (monster : Monster) : Monster :=
  { monster with id := fresh_id }

/-- Create operation of `battle_repository.rs` lines 35-46, analogous to
`create_monster`. -/
def create_battle (fresh_id : String) (battle : Battle) : Battle :=
  { battle with id := fresh_id }

/-! ### CSV bulk import -/

/-- HTTP outcome of the CSV import endpoint, restricted to the three
row-handling outcomes of `import_csv` (`monster_apis.rs` lines 80-115). -/
inductive ImportResponse where
  | badRequest (msg : String)
  | internalServerError (msg : String)
  | ok (monsters : List Monster)
deriving DecidableEq, Repr

/-- Row-parsing phase of `import_csv` (`monster_apis.rs` lines 80-90): each row
of the uploaded file either deserializes to a `Monster` or yields an error; the
first error aborts the whole phase, otherwise the parsed monsters are collected
in order. -/
def parse_rows : List (Except String Monster) → Except String (List Monster)
  | [] => Except.ok []
  | Except.error e :: _ => Except.error e
  | Except.ok m :: rest => (parse_rows rest).map (fun ms => m :: ms)

/-- Row handling of `import_csv` (`monster_apis.rs` lines 80-115), over the
list of per-row parse results.  The store's per-row outcome is abstracted as
the function `create` (the Fighter Store is an external collaborator).  The
first component of the result is the list of rows actually persisted (each
parsed row is submitted to the store independently; exactly the successful
ones are persisted); the second is the HTTP response. -/
def import_csv (rows : List (Except String Monster))
    (create : Monster → Except String Monster) : List Monster × ImportResponse :=
  match parse_rows rows with
  | Except.error _ => ([], ImportResponse.badRequest "Incomplete data, check your file.")
  | Except.ok new_monsters =>
    if new_monsters = [] then
      ([], ImportResponse.badRequest "No valid monsters found in the CSV file")
    else
      let results := new_monsters.map create
      let successful_monsters := results.filterMap Except.toOption
      if successful_monsters = [] then
        ([], ImportResponse.internalServerError "Failed to create monsters")
      else
        (successful_monsters, ImportResponse.ok successful_monsters)

/-! ### Concrete fighters used as witnesses -/

/-- Fighter A of the spec's Scenario A: attack 50, defense 10, speed 20, hp 100. -/
def scenario_a : Monster :=
  ⟨"monster-a", "https://img/a", 50, 10, 100, 20, none, none, "Monster A"⟩

/-- Fighter B of the spec's Scenario A: attack 30, defense 5, speed 15, hp 100. -/
def scenario_b : Monster :=
  ⟨"monster-b", "https://img/b", 30, 5, 100, 15, none, none, "Monster B"⟩

/-- Two fighters with equal speed and equal attack (the unresolved tie-break). -/
def tie_a : Monster := ⟨"tie-a", "https://img/ta", 7, 3, 20, 5, none, none, "Tie A"⟩

def tie_b : Monster := ⟨"tie-b", "https://img/tb", 7, 2, 20, 5, none, none, "Tie B"⟩

/-- Rows for the import witnesses: a well-formed file and a corrupt file. -/
def csv_good_monster : Monster := ⟨"", "img1", 1, 2, 3, 4, none, none, "good"⟩

def csv_bad_monster : Monster := ⟨"", "img2", 5, 6, 7, 8, none, none, "bad"⟩

def csv_rows_ok : List (Except String Monster) :=
  [Except.ok csv_good_monster, Except.ok csv_bad_monster]

def csv_rows_corrupt : List (Except String Monster) :=
  [Except.ok csv_good_monster, Except.error "missing column"]

/-- A store that rejects exactly the monster named "bad". -/
def csv_store (m : Monster) : Except String Monster :=
  if m.name = "bad" then Except.error "db error" else Except.ok m

theorem battle_damage_pos (attacker defender : Monster) : 1 ≤ battle_damage attacker defender := by
  unfold battle_damage
  split <;> omega

/-! ### Unfolding lemmas for the four branches of `battle_loop` -/

theorem battle_loop_true_cont (a b : Monster) (h : b.hp > battle_damage a b) :
    battle_loop a b true =
      { battle_loop a { b with hp := b.hp - battle_damage a b } false with
        trace := ⟨true, battle_damage a b, b.hp⟩ ::
          (battle_loop a { b with hp := b.hp - battle_damage a b } false).trace } := by
  rw [battle_loop.eq_def]
  simp [h]

theorem battle_loop_true_stop (a b : Monster) (h : ¬ b.hp > battle_damage a b) :
    battle_loop a b true =
      { winner := a, final_a := a, final_b := { b with hp := 0 },
        trace := [⟨true, battle_damage a b, b.hp⟩] } := by
  rw [battle_loop.eq_def]
  simp [h]

theorem battle_loop_false_cont (a b : Monster) (h : a.hp > battle_damage b a) :
    battle_loop a b false =
      { battle_loop { a with hp := a.hp - battle_damage b a } b true with
        trace := ⟨false, battle_damage b a, a.hp⟩ ::
          (battle_loop { a with hp := a.hp - battle_damage b a } b true).trace } := by
  rw [battle_loop.eq_def]
  simp [h]

theorem battle_loop_false_stop (a b : Monster) (h : ¬ a.hp > battle_damage b a) :
    battle_loop a b false =
      { winner := b, final_a := { a with hp := 0 }, final_b := b,
        trace := [⟨false, battle_damage b a, a.hp⟩] } := by
  rw [battle_loop.eq_def]
  simp [h]

/-! ### Structural invariants of the battle loop -/

theorem battle_loop_trace_ne_nil (a b : Monster) (t : Bool) :
    (battle_loop a b t).trace ≠ [] := by
  induction a, b, t using battle_loop.induct with
  | case1 a b d h ih =>
    rw [battle_loop_true_cont a b h]
    simp
  | case2 a b d h =>
    rw [battle_loop_true_stop a b h]
    simp
  | case3 a b t ht d h ih =>
    have ht2 : t = false := by simpa using ht
    subst ht2
    rw [battle_loop_false_cont a b h]
    simp
  | case4 a b t ht d h =>
    have ht2 : t = false := by simpa using ht
    subst ht2
    rw [battle_loop_false_stop a b h]
    simp

/-- The first executed turn of the loop is the initial value of `monster_a_turn`. -/
theorem battle_loop_head (a b : Monster) (t : Bool) :
    (battle_loop a b t).trace.head?.map TurnLog.monster_a_turn = some t := by
  rcases t with _ | _
  · by_cases h : a.hp > battle_damage b a
    · rw [battle_loop_false_cont a b h]; simp
    · rw [battle_loop_false_stop a b h]; simp
  · by_cases h : b.hp > battle_damage a b
    · rw [battle_loop_true_cont a b h]; simp
    · rw [battle_loop_true_stop a b h]; simp

/-- Damage only depends on attack and defense, never on hit points. -/
theorem battle_damage_hp_right (x y : Monster) (n : Int) :
    battle_damage x { y with hp := n } = battle_damage x y := rfl

theorem battle_damage_hp_left (x y : Monster) (n : Int) :
    battle_damage { x with hp := n } y = battle_damage x y := rfl

/-- The damage formula in closed form. -/
theorem battle_damage_eq_max (attacker defender : Monster) :
    battle_damage attacker defender = max (attacker.attack - defender.defense) 1 := by
  unfold battle_damage
  split <;> omega

/-- Only hp is ever mutated by the loop: the final local snapshots agree with
the inputs on every field other than `hp`. -/
theorem battle_loop_final_fields (a b : Monster) (t : Bool) :
    (battle_loop a b t).final_a = { a with hp := (battle_loop a b t).final_a.hp } ∧
    (battle_loop a b t).final_b = { b with hp := (battle_loop a b t).final_b.hp } := by
  induction a, b, t using battle_loop.induct with
  | case1 a b d h ih =>
    rw [battle_loop_true_cont a b h]
    simpa using ih
  | case2 a b d h =>
    rw [battle_loop_true_stop a b h]
    simp
  | case3 a b t ht d h ih =>
    have ht2 : t = false := by simpa using ht
    subst ht2
    rw [battle_loop_false_cont a b h]
    simpa using ih
  | case4 a b t ht d h =>
    have ht2 : t = false := by simpa using ht
    subst ht2
    rw [battle_loop_false_stop a b h]
    simp

/-- The last executed iteration is the one whose hit would not leave the
defender's hp positive; the winner is the final snapshot of that iteration's
attacker and the other side's final hp is exactly 0. -/
theorem battle_loop_last (a b : Monster) (t : Bool) :
    ∃ l, (battle_loop a b t).trace.getLast? = some l ∧
      l.defender_hp_before ≤ l.damage ∧
      (l.monster_a_turn = true →
        (battle_loop a b t).winner = (battle_loop a b t).final_a ∧
        (battle_loop a b t).final_b.hp = 0) ∧
      (l.monster_a_turn = false →
        (battle_loop a b t).winner = (battle_loop a b t).final_b ∧
        (battle_loop a b t).final_a.hp = 0) := by
  induction a, b, t using battle_loop.induct with
  | case1 a b d h ih =>
    obtain ⟨l, hl, hle, hta, htb⟩ := ih
    obtain ⟨x, xs, hxx⟩ :=
      List.exists_cons_of_ne_nil
        (battle_loop_trace_ne_nil a { b with hp := b.hp - d } false)
    rw [battle_loop_true_cont a b h]
    refine ⟨l, ?_, hle, ?_, ?_⟩
    · simp only [hxx, List.getLast?_cons_cons]
      rw [← hxx]
      exact hl
    · intro h1
      simpa using hta h1
    · intro h1
      simpa using htb h1
  | case2 a b d h =>
    rw [battle_loop_true_stop a b h]
    refine ⟨⟨true, d, b.hp⟩, by simp, by simpa using h, by simp, by simp⟩
  | case3 a b t ht d h ih =>
    have ht2 : t = false := by simpa using ht
    subst ht2
    obtain ⟨l, hl, hle, hta, htb⟩ := ih
    obtain ⟨x, xs, hxx⟩ :=
      List.exists_cons_of_ne_nil
        (battle_loop_trace_ne_nil { a with hp := a.hp - d } b true)
    rw [battle_loop_false_cont a b h]
    refine ⟨l, ?_, hle, ?_, ?_⟩
    · simp only [hxx, List.getLast?_cons_cons]
      rw [← hxx]
      exact hl
    · intro h1
      simpa using hta h1
    · intro h1
      simpa using htb h1
  | case4 a b t ht d h =>
    have ht2 : t = false := by simpa using ht
    subst ht2
    rw [battle_loop_false_stop a b h]
    refine ⟨⟨false, d, a.hp⟩, by simp, by simpa using h, by simp, by simp⟩

/-- With positive hit points on both sides, the winner keeps positive hit
points and neither final hp exceeds the corresponding initial hp. -/
theorem battle_loop_hp (a b : Monster) (t : Bool) :
    0 < a.hp → 0 < b.hp →
    0 < (battle_loop a b t).winner.hp ∧
    (battle_loop a b t).final_a.hp ≤ a.hp ∧
    (battle_loop a b t).final_b.hp ≤ b.hp := by
  induction a, b, t using battle_loop.induct with
  | case1 a b d h ih =>
    intro ha hb
    have hd : 1 ≤ battle_damage a b := battle_damage_pos a b
    have hgt : b.hp > battle_damage a b := h
    obtain ⟨h1, h2, h3⟩ := ih ha (show (0 : Int) < b.hp - battle_damage a b by omega)
    rw [battle_loop_true_cont a b h]
    refine ⟨by simpa using h1, by simpa using h2, ?_⟩
    have h3b : (battle_loop a { b with hp := b.hp - battle_damage a b } false).final_b.hp ≤
        b.hp - battle_damage a b := h3
    show (battle_loop a { b with hp := b.hp - battle_damage a b } false).final_b.hp ≤ b.hp
    omega
  | case2 a b d h =>
    intro ha hb
    rw [battle_loop_true_stop a b h]
    refine ⟨by simpa using ha, by simp, by simpa using le_of_lt hb⟩
  | case3 a b t ht d h ih =>
    have ht2 : t = false := by simpa using ht
    subst ht2
    intro ha hb
    have hd : 1 ≤ battle_damage b a := battle_damage_pos b a
    have hgt : a.hp > battle_damage b a := h
    obtain ⟨h1, h2, h3⟩ := ih (show (0 : Int) < a.hp - battle_damage b a by omega) hb
    rw [battle_loop_false_cont a b h]
    refine ⟨by simpa using h1, ?_, by simpa using h3⟩
    have h2b : (battle_loop { a with hp := a.hp - battle_damage b a } b true).final_a.hp ≤
        a.hp - battle_damage b a := h2
    show (battle_loop { a with hp := a.hp - battle_damage b a } b true).final_a.hp ≤ a.hp
    omega
  | case4 a b t ht d h =>
    have ht2 : t = false := by simpa using ht
    subst ht2
    intro ha hb
    rw [battle_loop_false_stop a b h]
    refine ⟨by simpa using hb, by simpa using le_of_lt ha, by simp⟩


theorem countP_a_cons_true (d hp : Int) (tr : List TurnLog) :
    ((⟨true, d, hp⟩ : TurnLog) :: tr).countP (fun l => l.monster_a_turn) =
      tr.countP (fun l => l.monster_a_turn) + 1 := by
  simp [List.countP_cons]

theorem countP_a_cons_false (d hp : Int) (tr : List TurnLog) :
    ((⟨false, d, hp⟩ : TurnLog) :: tr).countP (fun l => l.monster_a_turn) =
      tr.countP (fun l => l.monster_a_turn) := by
  simp [List.countP_cons]

theorem countP_b_cons_true (d hp : Int) (tr : List TurnLog) :
    ((⟨true, d, hp⟩ : TurnLog) :: tr).countP (fun l => !l.monster_a_turn) =
      tr.countP (fun l => !l.monster_a_turn) := by
  simp [List.countP_cons]

theorem countP_b_cons_false (d hp : Int) (tr : List TurnLog) :
    ((⟨false, d, hp⟩ : TurnLog) :: tr).countP (fun l => !l.monster_a_turn) =
      tr.countP (fun l => !l.monster_a_turn) + 1 := by
  simp [List.countP_cons]

/-- Hit-count bounds: with positive initial hit points, each fighter is hit at
most `initial_hp` times, and the loop runs at most `a.hp + b.hp` iterations. -/
theorem battle_loop_hits (a b : Monster) (t : Bool) :
    0 < a.hp → 0 < b.hp →
    (battle_loop a b t).trace.countP (fun l => l.monster_a_turn) ≤ b.hp.toNat ∧
    (battle_loop a b t).trace.countP (fun l => !l.monster_a_turn) ≤ a.hp.toNat ∧
    (battle_loop a b t).trace.length ≤ a.hp.toNat + b.hp.toNat := by
  induction a, b, t using battle_loop.induct with
  | case1 a b d h ih =>
    intro ha hb
    have hd : 1 ≤ battle_damage a b := battle_damage_pos a b
    have hgt : b.hp > battle_damage a b := h
    obtain ⟨h1, h2, h3⟩ := ih ha (show (0 : Int) < b.hp - battle_damage a b by omega)
    have h1b : (battle_loop a { b with hp := b.hp - battle_damage a b } false).trace.countP
        (fun l => l.monster_a_turn) ≤ (b.hp - battle_damage a b).toNat := h1
    have h2b : (battle_loop a { b with hp := b.hp - battle_damage a b } false).trace.countP
        (fun l => !l.monster_a_turn) ≤ a.hp.toNat := h2
    have h3b : (battle_loop a { b with hp := b.hp - battle_damage a b } false).trace.length ≤
        a.hp.toNat + (b.hp - battle_damage a b).toNat := h3
    rw [battle_loop_true_cont a b h]
    refine ⟨?_, ?_, ?_⟩
    · show ((⟨true, battle_damage a b, b.hp⟩ ::
          (battle_loop a { b with hp := b.hp - battle_damage a b } false).trace).countP
          (fun l => l.monster_a_turn)) ≤ b.hp.toNat
      rw [countP_a_cons_true]
      omega
    · show ((⟨true, battle_damage a b, b.hp⟩ ::
          (battle_loop a { b with hp := b.hp - battle_damage a b } false).trace).countP
          (fun l => !l.monster_a_turn)) ≤ a.hp.toNat
      rw [countP_b_cons_true]
      omega
    · show ((⟨true, battle_damage a b, b.hp⟩ ::
          (battle_loop a { b with hp := b.hp - battle_damage a b } false).trace).length) ≤
          a.hp.toNat + b.hp.toNat
      rw [List.length_cons]
      omega
  | case2 a b d h =>
    intro ha hb
    rw [battle_loop_true_stop a b h]
    refine ⟨?_, ?_, ?_⟩
    · show (((⟨true, battle_damage a b, b.hp⟩ : TurnLog) :: []).countP
          (fun l => l.monster_a_turn)) ≤ b.hp.toNat
      rw [countP_a_cons_true]
      simp only [List.countP_nil]
      omega
    · show (((⟨true, battle_damage a b, b.hp⟩ : TurnLog) :: []).countP
          (fun l => !l.monster_a_turn)) ≤ a.hp.toNat
      rw [countP_b_cons_true]
      simp only [List.countP_nil]
      omega
    · show (((⟨true, battle_damage a b, b.hp⟩ : TurnLog) :: []).length) ≤
          a.hp.toNat + b.hp.toNat
      simp only [List.length_cons, List.length_nil]
      omega
  | case3 a b t ht d h ih =>
    have ht2 : t = false := by simpa using ht
    subst ht2
    intro ha hb
    have hd : 1 ≤ battle_damage b a := battle_damage_pos b a
    have hgt : a.hp > battle_damage b a := h
    obtain ⟨h1, h2, h3⟩ := ih (show (0 : Int) < a.hp - battle_damage b a by omega) hb
    have h1b : (battle_loop { a with hp := a.hp - battle_damage b a } b true).trace.countP
        (fun l => l.monster_a_turn) ≤ b.hp.toNat := h1
    have h2b : (battle_loop { a with hp := a.hp - battle_damage b a } b true).trace.countP
        (fun l => !l.monster_a_turn) ≤ (a.hp - battle_damage b a).toNat := h2
    have h3b : (battle_loop { a with hp := a.hp - battle_damage b a } b true).trace.length ≤
        (a.hp - battle_damage b a).toNat + b.hp.toNat := h3
    rw [battle_loop_false_cont a b h]
    refine ⟨?_, ?_, ?_⟩
    · show ((⟨false, battle_damage b a, a.hp⟩ ::
          (battle_loop { a with hp := a.hp - battle_damage b a } b true).trace).countP
          (fun l => l.monster_a_turn)) ≤ b.hp.toNat
      rw [countP_a_cons_false]
      omega
    · show ((⟨false, battle_damage b a, a.hp⟩ ::
          (battle_loop { a with hp := a.hp - battle_damage b a } b true).trace).countP
          (fun l => !l.monster_a_turn)) ≤ a.hp.toNat
      rw [countP_b_cons_false]
      omega
    · show ((⟨false, battle_damage b a, a.hp⟩ ::
          (battle_loop { a with hp := a.hp - battle_damage b a } b true).trace).length) ≤
          a.hp.toNat + b.hp.toNat
      rw [List.length_cons]
      omega
  | case4 a b t ht d h =>
    have ht2 : t = false := by simpa using ht
    subst ht2
    intro ha hb
    rw [battle_loop_false_stop a b h]
    refine ⟨?_, ?_, ?_⟩
    · show (((⟨false, battle_damage b a, a.hp⟩ : TurnLog) :: []).countP
          (fun l => l.monster_a_turn)) ≤ b.hp.toNat
      rw [countP_a_cons_false]
      simp only [List.countP_nil]
      omega
    · show (((⟨false, battle_damage b a, a.hp⟩ : TurnLog) :: []).countP
          (fun l => !l.monster_a_turn)) ≤ a.hp.toNat
      rw [countP_b_cons_false]
      simp only [List.countP_nil]
      omega
    · show (((⟨false, battle_damage b a, a.hp⟩ : TurnLog) :: []).length) ≤
          a.hp.toNat + b.hp.toNat
      simp only [List.length_cons, List.length_nil]
      omega

theorem turn_parity_flip (t : Bool) (i : Nat) :
    ((!t) == decide (i % 2 = 0)) = (t == decide ((i + 1) % 2 = 0)) := by
  rcases Nat.mod_two_eq_zero_or_one i with h | h
  · have h2 : (i + 1) % 2 = 1 := by omega
    cases t <;> simp [h, h2]
  · have h2 : (i + 1) % 2 = 0 := by omega
    cases t <;> simp [h, h2]

/-- Strict alternation: the attacker of the i-th executed turn is fully
determined by the initial value of `monster_a_turn` and the parity of i. -/
theorem battle_loop_parity (a b : Monster) (t : Bool) :
    ∀ i (hi : i < (battle_loop a b t).trace.length),
      ((battle_loop a b t).trace.get ⟨i, hi⟩).monster_a_turn =
        (t == decide (i % 2 = 0)) := by
  induction a, b, t using battle_loop.induct with
  | case1 a b d h ih =>
    rw [battle_loop_true_cont a b h]
    intro i hi
    rcases i with _ | i
    · simp
    · have hi2 : i < (battle_loop a { b with hp := b.hp - battle_damage a b } false).trace.length := by
        simpa using hi
      have hsub := ih i hi2
      rw [← turn_parity_flip true i]
      simpa using hsub
  | case2 a b d h =>
    rw [battle_loop_true_stop a b h]
    intro i hi
    rcases i with _ | i
    · simp
    · simp at hi
  | case3 a b t ht d h ih =>
    have ht2 : t = false := by simpa using ht
    subst ht2
    rw [battle_loop_false_cont a b h]
    intro i hi
    rcases i with _ | i
    · simp
    · have hi2 : i < (battle_loop { a with hp := a.hp - battle_damage b a } b true).trace.length := by
        simpa using hi
      have hsub := ih i hi2
      rw [← turn_parity_flip false i]
      simpa using hsub
  | case4 a b t ht d h =>
    have ht2 : t = false := by simpa using ht
    subst ht2
    rw [battle_loop_false_stop a b h]
    intro i hi
    rcases i with _ | i
    · simp
    · simp at hi

/-- Per-turn damage: every executed turn deals the damage computed from the
attack of that turn's attacker and the defense of its defender (those stats are
never mutated during the run). -/
theorem battle_loop_trace_damage (a b : Monster) (t : Bool) :
    ∀ l ∈ (battle_loop a b t).trace,
      l.damage = if l.monster_a_turn then battle_damage a b else battle_damage b a := by
  induction a, b, t using battle_loop.induct with
  | case1 a b d h ih =>
    rw [battle_loop_true_cont a b h]
    intro l hl
    have hl2 : l = ⟨true, battle_damage a b, b.hp⟩ ∨
        l ∈ (battle_loop a { b with hp := b.hp - battle_damage a b } false).trace := by
      simpa using hl
    rcases hl2 with rfl | hl2
    · simp
    · have := ih l hl2
      simpa [battle_damage_hp_right, battle_damage_hp_left] using this
  | case2 a b d h =>
    rw [battle_loop_true_stop a b h]
    intro l hl
    have hl2 : l = ⟨true, battle_damage a b, b.hp⟩ := by simpa using hl
    subst hl2
    simp
  | case3 a b t ht d h ih =>
    have ht2 : t = false := by simpa using ht
    subst ht2
    rw [battle_loop_false_cont a b h]
    intro l hl
    have hl2 : l = ⟨false, battle_damage b a, a.hp⟩ ∨
        l ∈ (battle_loop { a with hp := a.hp - battle_damage b a } b true).trace := by
      simpa using hl
    rcases hl2 with rfl | hl2
    · simp
    · have := ih l hl2
      simpa [battle_damage_hp_right, battle_damage_hp_left] using this
  | case4 a b t ht d h =>
    have ht2 : t = false := by simpa using ht
    subst ht2
    rw [battle_loop_false_stop a b h]
    intro l hl
    have hl2 : l = ⟨false, battle_damage b a, a.hp⟩ := by simpa using hl
    subst hl2
    simp

/-- On every executed turn except the last, the defender's hp strictly exceeds
the damage (the loop continues exactly as long as this holds). -/
theorem battle_loop_mid (a b : Monster) (t : Bool) :
    ∀ i (hi : i + 1 < (battle_loop a b t).trace.length),
      ((battle_loop a b t).trace.get ⟨i, Nat.lt_of_succ_lt hi⟩).damage <
        ((battle_loop a b t).trace.get ⟨i, Nat.lt_of_succ_lt hi⟩).defender_hp_before := by
  induction a, b, t using battle_loop.induct with
  | case1 a b d h ih =>
    have hgt : b.hp > battle_damage a b := h
    rw [battle_loop_true_cont a b h]
    intro i hi
    rcases i with _ | i
    · simpa using hgt
    · have hi2 : i + 1 < (battle_loop a { b with hp := b.hp - battle_damage a b } false).trace.length := by
        simpa using hi
      simpa using ih i hi2
  | case2 a b d h =>
    rw [battle_loop_true_stop a b h]
    intro i hi
    simp at hi
  | case3 a b t ht d h ih =>
    have ht2 : t = false := by simpa using ht
    subst ht2
    have hgt : a.hp > battle_damage b a := h
    rw [battle_loop_false_cont a b h]
    intro i hi
    rcases i with _ | i
    · simpa using hgt
    · have hi2 : i + 1 < (battle_loop { a with hp := a.hp - battle_damage b a } b true).trace.length := by
        simpa using hi
      simpa using ih i hi2
  | case4 a b t ht d h =>
    have ht2 : t = false := by simpa using ht
    subst ht2
    rw [battle_loop_false_stop a b h]
    intro i hi
    simp at hi

/-- A parse error exists exactly when some row is an error row. -/
theorem parse_rows_error_iff (rows : List (Except String Monster)) :
    (∃ e, parse_rows rows = Except.error e) ↔ (∃ e, Except.error e ∈ rows) := by
  induction rows with
  | nil => simp [parse_rows]
  | cons r rest ih =>
    rcases r with e | m
    · simp [parse_rows]
    · simp only [parse_rows]
      constructor
      · rintro ⟨e, he⟩
        rcases hpr : parse_rows rest with e2 | ms
        · obtain ⟨e3, he3⟩ := ih.mp ⟨e2, hpr⟩
          exact ⟨e3, by simp [he3]⟩
        · rw [hpr] at he
          simp [Except.map] at he
      · rintro ⟨e, he⟩
        rcases List.mem_cons.mp he with he | he
        · exact absurd he (by simp)
        · obtain ⟨e2, he2⟩ := ih.mpr ⟨e, he⟩
          exact ⟨e2, by simp [he2, Except.map]⟩

/-- Full evaluation of Scenario A: A attacks first; per-turn damages are 45
(A hitting B, i.e. 50 - 5) and 20 (B hitting A, i.e. 30 - 10); after four full
turns (B at 10 hp, A at 60 hp) A's fifth-turn hit ends the battle. -/
theorem scenario_run_eval :
    simulate_battle_run scenario_a scenario_b =
      { winner := ⟨"monster-a", "https://img/a", 50, 10, 60, 20, none, none, "Monster A"⟩
        final_a := ⟨"monster-a", "https://img/a", 50, 10, 60, 20, none, none, "Monster A"⟩
        final_b := ⟨"monster-b", "https://img/b", 30, 5, 0, 15, none, none, "Monster B"⟩
        trace := [⟨true, 45, 100⟩, ⟨false, 20, 100⟩, ⟨true, 45, 55⟩,
                  ⟨false, 20, 80⟩, ⟨true, 45, 10⟩] } := by
  simp [simulate_battle_run, monster_a_first, scenario_a, scenario_b,
        battle_loop_true_cont, battle_loop_true_stop, battle_loop_false_cont,
        battle_loop_false_stop, battle_damage]

theorem scenario_trace_len :
    1 < (simulate_battle_run scenario_a scenario_b).trace.length := by
  rw [scenario_run_eval]
  simp

/-! ### Claims -/

/-- Claim C1: for every pair of fighter snapshots, `simulate_battle` gives the
first turn to the fighter with strictly greater speed, or, when speeds are
exactly equal, to the fighter with strictly greater attack; thereafter the
attacker and defender roles alternate strictly on every turn, so the
initiative established before the first turn fully determines who attacks on
each subsequent turn (turn i is monster A's iff the initiative flag agrees
with the parity of i). -/
theorem claim_c1_initiative_and_alternation (a b : Monster) :
    (monster_a_first a b = true ↔
      (b.speed < a.speed ∨ (a.speed = b.speed ∧ b.attack < a.attack))) ∧
    (simulate_battle_run a b).trace.head?.map TurnLog.monster_a_turn =
      some (monster_a_first a b) ∧
    ∀ i (hi : i < (simulate_battle_run a b).trace.length),
      ((simulate_battle_run a b).trace.get ⟨i, hi⟩).monster_a_turn =
        (monster_a_first a b == decide (i % 2 = 0)) := by
  refine ⟨?_, ?_, ?_⟩
  · unfold monster_a_first
    split <;> rename_i hcond
    · simpa using hcond
    · simpa using hcond
  · exact battle_loop_head a b (monster_a_first a b)
  · intro i hi
    exact battle_loop_parity a b (monster_a_first a b) i hi

theorem claim_c1_witness :
    (monster_a_first scenario_a scenario_b = true ↔
      (scenario_b.speed < scenario_a.speed ∨
        (scenario_a.speed = scenario_b.speed ∧
          scenario_b.attack < scenario_a.attack))) ∧
    ((simulate_battle_run scenario_a scenario_b).trace.get
        ⟨1, scenario_trace_len⟩).monster_a_turn =
      (monster_a_first scenario_a scenario_b == decide (1 % 2 = 0)) :=
  ⟨(claim_c1_initiative_and_alternation scenario_a scenario_b).1,
   (claim_c1_initiative_and_alternation scenario_a scenario_b).2.2 1 scenario_trace_len⟩

/-- Claim C2: on every turn of `simulate_battle`, for any attacker and
defender snapshots (zero and negative attack and defense included), the damage
applied to the defender equals max(attacker.attack - defender.defense, 1); it
is never zero and never negative. -/
theorem claim_c2_damage_is_clamped_difference (a b : Monster) :
    ∀ l ∈ (simulate_battle_run a b).trace,
      l.damage = (if l.monster_a_turn then max (a.attack - b.defense) 1
                  else max (b.attack - a.defense) 1) ∧
      1 ≤ l.damage := by
  intro l hl
  have hd := battle_loop_trace_damage a b (monster_a_first a b) l hl
  constructor
  · rw [hd]
    by_cases ht : l.monster_a_turn = true <;>
      simp [ht, battle_damage_eq_max]
  · rw [hd]
    split
    · exact battle_damage_pos a b
    · exact battle_damage_pos b a

theorem claim_c2_witness :
    (⟨true, 45, 100⟩ : TurnLog) ∈ (simulate_battle_run scenario_a scenario_b).trace ∧
    ((⟨true, 45, 100⟩ : TurnLog).damage =
      (if (⟨true, 45, 100⟩ : TurnLog).monster_a_turn
        then max (scenario_a.attack - scenario_b.defense) 1
        else max (scenario_b.attack - scenario_a.defense) 1) ∧
      1 ≤ (⟨true, 45, 100⟩ : TurnLog).damage) := by
  have hmem : (⟨true, 45, 100⟩ : TurnLog) ∈
      (simulate_battle_run scenario_a scenario_b).trace := by
    rw [scenario_run_eval]
    simp
  exact ⟨hmem, claim_c2_damage_is_clamped_difference scenario_a scenario_b _ hmem⟩

/-- Claim C3: with positive integer stats on both sides, `simulate_battle`
returns a fighter whose identifier matches one of the two inputs; the loop
returns exactly on the first turn whose damage would bring the defender's hp
to zero or below (all earlier turns have defender hp strictly above the
damage); at that moment the loser's hp is set to precisely 0 and the current
attacker is returned as winner with no further turns. -/
theorem claim_c3_winner_and_stopping (a b : Monster)
    (ha1 : 0 < a.attack) (ha2 : 0 < a.defense) (ha3 : 0 < a.speed) (ha4 : 0 < a.hp)
    (hb1 : 0 < b.attack) (hb2 : 0 < b.defense) (hb3 : 0 < b.speed) (hb4 : 0 < b.hp) :
    ((simulate_battle a b).id = a.id ∨ (simulate_battle a b).id = b.id) ∧
    (∀ i (hi : i + 1 < (simulate_battle_run a b).trace.length),
      ((simulate_battle_run a b).trace.get ⟨i, Nat.lt_of_succ_lt hi⟩).damage <
        ((simulate_battle_run a b).trace.get
          ⟨i, Nat.lt_of_succ_lt hi⟩).defender_hp_before) ∧
    ∃ l, (simulate_battle_run a b).trace.getLast? = some l ∧
      l.defender_hp_before ≤ l.damage ∧
      (l.monster_a_turn = true →
        simulate_battle a b = (simulate_battle_run a b).final_a ∧
        (simulate_battle_run a b).final_b.hp = 0) ∧
      (l.monster_a_turn = false →
        simulate_battle a b = (simulate_battle_run a b).final_b ∧
        (simulate_battle_run a b).final_a.hp = 0) := by
  simp only [simulate_battle, simulate_battle_run]
  obtain ⟨hffa, hffb⟩ := battle_loop_final_fields a b (monster_a_first a b)
  obtain ⟨l, hl, hle, hta, htb⟩ := battle_loop_last a b (monster_a_first a b)
  refine ⟨?_, ?_, ⟨l, hl, hle, hta, htb⟩⟩
  · cases hbt : l.monster_a_turn
    · obtain ⟨hw, _⟩ := htb hbt
      right
      rw [hw, hffb]
    · obtain ⟨hw, _⟩ := hta hbt
      left
      rw [hw, hffa]
  · intro i hi
    exact battle_loop_mid a b (monster_a_first a b) i hi

theorem claim_c3_witness :
    (0 < scenario_a.attack ∧ 0 < scenario_a.defense ∧ 0 < scenario_a.speed ∧
      0 < scenario_a.hp ∧ 0 < scenario_b.attack ∧ 0 < scenario_b.defense ∧
      0 < scenario_b.speed ∧ 0 < scenario_b.hp) ∧
    ((simulate_battle scenario_a scenario_b).id = scenario_a.id ∨
      (simulate_battle scenario_a scenario_b).id = scenario_b.id) := by
  refine ⟨by decide, ?_⟩
  exact (claim_c3_winner_and_stopping scenario_a scenario_b
    (by decide) (by decide) (by decide) (by decide)
    (by decide) (by decide) (by decide) (by decide)).1

/-- Claim C4: for hit points ≥ 1 on both sides (attack, defense and speed are
unrestricted integers), the run of `simulate_battle` is finite — `battle_loop`
is a total function defined without any fuel or turn cap, by well-founded
recursion on the defenders' hit points — and the trace obeys the claimed
bounds: each fighter is hit at most its initial hp times, so the whole loop
runs at most `a.hp + b.hp` iterations. -/
theorem claim_c4_termination_bound (a b : Monster) (ha : 0 < a.hp) (hb : 0 < b.hp) :
    (simulate_battle_run a b).trace.countP (fun l => l.monster_a_turn) ≤ b.hp.toNat ∧
    (simulate_battle_run a b).trace.countP (fun l => !l.monster_a_turn) ≤ a.hp.toNat ∧
    (simulate_battle_run a b).trace.length ≤ a.hp.toNat + b.hp.toNat :=
  battle_loop_hits a b (monster_a_first a b) ha hb

theorem claim_c4_witness :
    0 < scenario_a.hp ∧ 0 < scenario_b.hp ∧
    ((simulate_battle_run scenario_a scenario_b).trace.countP
        (fun l => l.monster_a_turn) ≤ scenario_b.hp.toNat ∧
      (simulate_battle_run scenario_a scenario_b).trace.countP
        (fun l => !l.monster_a_turn) ≤ scenario_a.hp.toNat ∧
      (simulate_battle_run scenario_a scenario_b).trace.length ≤
        scenario_a.hp.toNat + scenario_b.hp.toNat) :=
  ⟨by decide, by decide,
   claim_c4_termination_bound scenario_a scenario_b (by decide) (by decide)⟩

/-- Claim C5: when the two fighters have exactly equal speed and exactly equal
attack, the initiative flag resolves to "not A": fighter A does not act first
and fighter B (the second argument) takes the first turn. -/
theorem claim_c5_tie_goes_to_b (a b : Monster)
    (hs : a.speed = b.speed) (hat : a.attack = b.attack) :
    monster_a_first a b = false ∧
    (simulate_battle_run a b).trace.head?.map TurnLog.monster_a_turn = some false := by
  have h1 : monster_a_first a b = false := by
    unfold monster_a_first
    split <;> rename_i hcond
    · exfalso
      rcases hcond with hlt | ⟨_, hlt⟩ <;> omega
    · rfl
  refine ⟨h1, ?_⟩
  have h2 := battle_loop_head a b (monster_a_first a b)
  rw [h1] at h2
  simp only [simulate_battle_run, h1]
  exact h2

theorem claim_c5_witness :
    tie_a.speed = tie_b.speed ∧ tie_a.attack = tie_b.attack ∧
    (monster_a_first tie_a tie_b = false ∧
      (simulate_battle_run tie_a tie_b).trace.head?.map TurnLog.monster_a_turn =
        some false) :=
  ⟨rfl, rfl, claim_c5_tie_goes_to_b tie_a tie_b rfl rfl⟩

/-- Claim C6: `simulate_battle` is modelled as a pure function of its two
snapshots (the Rust function takes its arguments by value, touches no
external state and performs no I/O; its only mutations are of the local
copies); hence any two invocations on equal copies of the same inputs return
the same winner. -/
theorem claim_c6_deterministic (a b a2 b2 : Monster) (hA : a = a2) (hB : b = b2) :
    simulate_battle a b = simulate_battle a2 b2 := by
  subst hA
  subst hB
  rfl

theorem claim_c6_witness :
    simulate_battle scenario_a scenario_b = simulate_battle scenario_a scenario_b :=
  claim_c6_deterministic scenario_a scenario_b scenario_a scenario_b rfl rfl

/-- Claim C7 counterexample: in the spec's Scenario A (A: attack 50, defense
10, speed 20, hp 100; B: attack 30, defense 5, speed 15, hp 100) fighter A
does NOT deal 40 damage per turn: the code computes attacker.attack -
defender.defense = 50 - 5 = 45 on every one of A's turns. -/
theorem claim_c7_counterexample :
    ¬ (∀ l ∈ (simulate_battle_run scenario_a scenario_b).trace,
        l.monster_a_turn = true → l.damage = 40) := by
  rw [scenario_run_eval]
  decide

/-- Claim C7 (amended): in Scenario A, fighter A acts first because of higher
speed, A deals 45 damage per turn (50 - 5, the defender's defense), B deals
20 damage per turn (30 - 10), and `simulate_battle` returns fighter A (with
60 hp remaining) as the winner. -/
theorem claim_c7_scenario_a :
    monster_a_first scenario_a scenario_b = true ∧
    (simulate_battle_run scenario_a scenario_b).trace.map
        (fun l => (l.monster_a_turn, l.damage)) =
      [(true, 45), (false, 20), (true, 45), (false, 20), (true, 45)] ∧
    simulate_battle scenario_a scenario_b =
      ⟨"monster-a", "https://img/a", 50, 10, 60, 20, none, none, "Monster A"⟩ := by
  refine ⟨by decide, ?_, ?_⟩
  · rw [scenario_run_eval]
    decide
  · simp only [simulate_battle]
    rw [scenario_run_eval]

/-- Claim C8: the record that `create_monster` / `create_battle` insert and
return carries the freshly generated server-side identifier (overriding any
client-supplied identifier, since the result's id is `fresh_id` no matter what
the client's id field was), while every other field is exactly the field of
the client-supplied record. -/
theorem claim_c8_create_overrides_id (fresh_m fresh_b : String)
    (m : Monster) (bt : Battle) :
    (create_monster fresh_m m).id = fresh_m ∧
    (create_monster fresh_m m).image_url = m.image_url ∧
    (create_monster fresh_m m).attack = m.attack ∧
    (create_monster fresh_m m).defense = m.defense ∧
    (create_monster fresh_m m).hp = m.hp ∧
    (create_monster fresh_m m).speed = m.speed ∧
    (create_monster fresh_m m).created_at = m.created_at ∧
    (create_monster fresh_m m).updated_at = m.updated_at ∧
    (create_monster fresh_m m).name = m.name ∧
    (create_battle fresh_b bt).id = fresh_b ∧
    (create_battle fresh_b bt).monster_a = bt.monster_a ∧
    (create_battle fresh_b bt).monster_b = bt.monster_b ∧
    (create_battle fresh_b bt).winner = bt.winner ∧
    (create_battle fresh_b bt).created_at = bt.created_at ∧
    (create_battle fresh_b bt).updated_at = bt.updated_at :=
  ⟨rfl, rfl, rfl, rfl, rfl, rfl, rfl, rfl, rfl, rfl, rfl, rfl, rfl, rfl, rfl⟩

/-- Claim C9: in the CSV import, a parse failure on any row (and a parse error
arises exactly when some row is an error row) aborts the whole import with a
client error and persists no row; otherwise every parsed row is submitted to
the store independently, and whenever at least one row persists the response
reports exactly the successfully created records — store-level failures of
other rows are not rolled back. -/
theorem claim_c9_import_behaviour (rows : List (Except String Monster))
    (create : Monster → Except String Monster) :
    ((∃ e, parse_rows rows = Except.error e) ↔ (∃ e, Except.error e ∈ rows)) ∧
    (∀ e, parse_rows rows = Except.error e →
      import_csv rows create =
        ([], ImportResponse.badRequest "Incomplete data, check your file.")) ∧
    (∀ ms, parse_rows rows = Except.ok ms → ms ≠ [] →
      (ms.map create).filterMap Except.toOption ≠ [] →
      import_csv rows create =
        ((ms.map create).filterMap Except.toOption,
          ImportResponse.ok ((ms.map create).filterMap Except.toOption))) := by
  refine ⟨parse_rows_error_iff rows, ?_, ?_⟩
  · intro e he
    simp [import_csv, he]
  · intro ms hms hne hsucc
    unfold import_csv
    rw [hms]
    simp only [if_neg hne, if_neg hsucc]

theorem claim_c9_witness :
    parse_rows csv_rows_corrupt = Except.error "missing column" ∧
    import_csv csv_rows_corrupt csv_store =
      ([], ImportResponse.badRequest "Incomplete data, check your file.") ∧
    parse_rows csv_rows_ok = Except.ok [csv_good_monster, csv_bad_monster] ∧
    csv_store csv_good_monster = Except.ok csv_good_monster ∧
    csv_store csv_bad_monster = Except.error "db error" ∧
    import_csv csv_rows_ok csv_store =
      ([csv_good_monster], ImportResponse.ok [csv_good_monster]) := by
  refine ⟨rfl, ?_, rfl, rfl, rfl, ?_⟩
  · exact (claim_c9_import_behaviour csv_rows_corrupt csv_store).2.1
      "missing column" rfl
  · exact (claim_c9_import_behaviour csv_rows_ok csv_store).2.2
      [csv_good_monster, csv_bad_monster] rfl (by decide) (by decide)

/-- Claim C10: for inputs with hit points ≥ 1, the winner returned by
`simulate_battle` has strictly positive hit points (it is never the fighter
whose hp was set to 0), and its identifier, name, image reference, attack,
defense and speed are exactly those of the corresponding input; only its hit
points may be lower than in the input. -/
theorem claim_c10_winner_positive_and_frame (a b : Monster)
    (ha : 0 < a.hp) (hb : 0 < b.hp) :
    0 < (simulate_battle a b).hp ∧
    (((simulate_battle a b).id = a.id ∧ (simulate_battle a b).name = a.name ∧
      (simulate_battle a b).image_url = a.image_url ∧
      (simulate_battle a b).attack = a.attack ∧
      (simulate_battle a b).defense = a.defense ∧
      (simulate_battle a b).speed = a.speed ∧
      (simulate_battle a b).hp ≤ a.hp) ∨
     ((simulate_battle a b).id = b.id ∧ (simulate_battle a b).name = b.name ∧
      (simulate_battle a b).image_url = b.image_url ∧
      (simulate_battle a b).attack = b.attack ∧
      (simulate_battle a b).defense = b.defense ∧
      (simulate_battle a b).speed = b.speed ∧
      (simulate_battle a b).hp ≤ b.hp)) := by
  simp only [simulate_battle, simulate_battle_run]
  obtain ⟨hw, hfa, hfb⟩ := battle_loop_hp a b (monster_a_first a b) ha hb
  obtain ⟨hffa, hffb⟩ := battle_loop_final_fields a b (monster_a_first a b)
  obtain ⟨l, hl, hle, hta, htb⟩ := battle_loop_last a b (monster_a_first a b)
  refine ⟨hw, ?_⟩
  cases hbt : l.monster_a_turn
  · obtain ⟨hwin, _⟩ := htb hbt
    right
    rw [hwin, hffb]
    exact ⟨rfl, rfl, rfl, rfl, rfl, rfl, hfb⟩
  · obtain ⟨hwin, _⟩ := hta hbt
    left
    rw [hwin, hffa]
    exact ⟨rfl, rfl, rfl, rfl, rfl, rfl, hfa⟩

theorem claim_c10_witness :
    0 < scenario_a.hp ∧ 0 < scenario_b.hp ∧
    (0 < (simulate_battle scenario_a scenario_b).hp ∧
      (((simulate_battle scenario_a scenario_b).id = scenario_a.id ∧
        (simulate_battle scenario_a scenario_b).name = scenario_a.name ∧
        (simulate_battle scenario_a scenario_b).image_url = scenario_a.image_url ∧
        (simulate_battle scenario_a scenario_b).attack = scenario_a.attack ∧
        (simulate_battle scenario_a scenario_b).defense = scenario_a.defense ∧
        (simulate_battle scenario_a scenario_b).speed = scenario_a.speed ∧
        (simulate_battle scenario_a scenario_b).hp ≤ scenario_a.hp) ∨
       ((simulate_battle scenario_a scenario_b).id = scenario_b.id ∧
        (simulate_battle scenario_a scenario_b).name = scenario_b.name ∧
        (simulate_battle scenario_a scenario_b).image_url = scenario_b.image_url ∧
        (simulate_battle scenario_a scenario_b).attack = scenario_b.attack ∧
        (simulate_battle scenario_a scenario_b).defense = scenario_b.defense ∧
        (simulate_battle scenario_a scenario_b).speed = scenario_b.speed ∧
        (simulate_battle scenario_a scenario_b).hp ≤ scenario_b.hp))) :=
  ⟨by decide, by decide,
   claim_c10_winner_positive_and_frame scenario_a scenario_b (by decide) (by decide)⟩
